import Mathlib

/-!
Verification development for the benchmark-runner functions of the
"SVM Comparison" notebook (notebooks/SVM Comparison.ipynb).

The notebook defines three straight-line runner functions, `run_libsvm`,
`run_thundersvm` and `run_flk`, each of which constructs an external SVM
solver, times its `fit` call, predicts on the test set, evaluates a
supplied error function and prints two report lines.  The embedding below
translates each runner into a pure Lean function over

  * an abstract clock oracle `clock : ℕ → ℚ` (the value of the i-th
    `time.time()` call made by the runner),
  * an abstract solver oracle (the external sklearn / thundersvm / falkon
    library), whose `fit` and `predict` may fail (a Python exception is an
    `Except.error`),
  * an abstract Python numeral renderer `pyStr : ℚ → String` (how an
    f-string renders a bare number), and
  * the supplied error function `err_fn`.

Each runner returns the event trace it performs, in program order, together
with its result (`Except.error` when an underlying solver call raises).
Real numbers are modelled as rationals.
-/

namespace SVMComparison

/-- A two-dimensional numeric array (torch tensor / numpy array): a list of
rows. -/
abbrev Mat := List (List ℚ)

/-- A one-dimensional numeric array, e.g. the output of `SVC.predict`. -/
abbrev Vec := List ℚ

/-- An error function as supplied to the runners: applied to the true test
labels and the predictions, it returns the scalar error value and the
human-readable metric name. -/
abbrev ErrFn := Mat → Mat → ℚ × String

/-- `X.numpy()`: converts a torch tensor to a numpy array viewing the same
data; value-level identity, no copy and no mutation. -/
def numpy (X : Mat) : Mat := X

/-- `torch.from_numpy(p)`: wraps a numpy array as a torch tensor sharing the
same data; value-level identity. -/
def from_numpy (X : Mat) : Mat := X

/-- Helper for `argmaxIdx`: scans the tail keeping the first index at which
the running maximum is attained (a strictly larger element replaces it, a
tie keeps the earlier index, matching numpy/torch `argmax`). -/
def argmaxAux : List ℚ → ℚ → ℕ → ℕ → ℕ
  | [], _, _, best => best
  | x :: xs, bestv, i, best =>
      if bestv < x then argmaxAux xs x (i + 1) i
      else argmaxAux xs bestv (i + 1) best

/-- Index of the first occurrence of the maximum of a row (numpy/torch
`argmax` along the row; `0` on an empty row, which numpy rejects but which
no claim exercises). -/
def argmaxIdx : List ℚ → ℕ
  | [] => 0
  | x :: xs => argmaxAux xs x 1 0

/-- `Y.argmax(1)`: per-row argmax, turning a one-hot label matrix into class
indices. -/
def argmax1 (Y : Mat) : List ℕ := Y.map argmaxIdx

/-- `p.reshape(-1, 1)`: reinterprets a length-n vector as an n-by-1 matrix;
the data is unchanged, each element becomes a singleton row. -/
def reshapeNeg1_1 (p : Vec) : Mat := p.map (fun x => [x])

/-- Left-pads the digit string `s` with zeros up to width `w`. -/
def padLeftZeros (w : ℕ) (s : String) : String :=
  String.mk (List.replicate (w - s.length) '0') ++ s

/-- Left-pads `s` with spaces up to width `w` (the field-width padding of a
Python format specifier). -/
def padLeftSpaces (w : ℕ) (s : String) : String :=
  String.mk (List.replicate (w - s.length) ' ') ++ s

/-- Fixed-point decimal rendering of a rational with `prec` digits after the
point: the model of Python's fixed-point float formatting (two digits for
the elapsed time, six for the error value).  Rounds to nearest, ties
upward; Python rounds the underlying binary float, which differs only on
ties, and no claim depends on tie behaviour. -/
def formatFixed (prec : ℕ) (q : ℚ) : String :=
  let s : ℚ := q * (10 : ℚ) ^ prec
  let scaled : ℤ := Int.fdiv (2 * s.num + s.den) (2 * s.den)
  let sign : String := if scaled < 0 then "-" else ""
  let m : ℕ := scaled.natAbs
  sign ++ toString (m / 10 ^ prec) ++ "." ++
    padLeftZeros prec (toString (m % 10 ^ prec))

/-- Width-and-precision rendering: `formatFixed prec` left-padded with
spaces to `width` characters, modelling a format field such as width 9 with
6 decimal places. -/
def formatWidth (width prec : ℕ) (q : ℚ) : String :=
  padLeftSpaces width (formatFixed prec q)

/-- The form in which training labels are handed to a solver's `fit`:
either class indices obtained by `argmax(1)`, or the original (possibly
one-hot) label matrix. -/
inductive FitLabels where
  | idx (ys : List ℕ)
  | raw (Y : Mat)
deriving DecidableEq

/-- One observable step performed by a runner, recorded in program order.
`errCall Y P` denotes an invocation of the runner's supplied error function
on `(Y, P)`; `inFit e` is a step the solver's `fit` performs internally;
`write i` would denote a mutation of the input array with identity `i` —
the runners never emit it, it exists so that the absence of mutation is a
statement and not a typing accident. -/
inductive Event where
  | timeRead (t : ℚ)
  | svcConstruct (C gamma : ℚ)
  | falkonConstruct (sigma penalty : ℚ) (M maxiter : ℕ) (seed : ℤ) (errorEvery : ℕ)
  | fitCall (X : Mat) (Y : FitLabels)
  | falkonFitCall (Xtr Ytr Xts Yts : Mat)
  | predictCall (X : Mat)
  | errCall (Ytrue : Mat) (preds : Mat)
  | print (s : String)
  | write (arrId : ℕ)
  | inFit (e : Event)
deriving DecidableEq

/-- Is this event a `time.time()` read? -/
def Event.isTimeRead : Event → Bool
  | Event.timeRead _ => true
  | _ => false

/-- Is this event one of the runner's own print statements? -/
def Event.isPrint : Event → Bool
  | Event.print _ => true
  | _ => false

/-- Is this event part of the fitting step: the `fit` invocation itself or a
step performed inside it? -/
def Event.isFitPhase : Event → Bool
  | Event.fitCall _ _ => true
  | Event.falkonFitCall _ _ _ _ => true
  | Event.inFit _ => true
  | _ => false

/-- Is this event one of the runner's own post-fit steps, i.e. its
prediction step or its error-evaluation step (not a step inside `fit`)? -/
def Event.isPostStep : Event → Bool
  | Event.predictCall _ => true
  | Event.errCall _ _ => true
  | _ => false

/-- Is this event an SVC-style `fit` invocation? -/
def Event.isFitCall : Event → Bool
  | Event.fitCall _ _ => true
  | _ => false

/-- Is this event a Falkon `fit` invocation? -/
def Event.isFalkonFitCall : Event → Bool
  | Event.falkonFitCall _ _ _ _ => true
  | _ => false

/-- Is this event any `fit` invocation (either solver family)? -/
def Event.isAnyFitCall : Event → Bool
  | Event.fitCall _ _ => true
  | Event.falkonFitCall _ _ _ _ => true
  | _ => false

/-- Is this event the runner's own error-function invocation (outside
`fit`)? -/
def Event.isErrCallTop : Event → Bool
  | Event.errCall _ _ => true
  | _ => false

/-- Is this event an error-function invocation, whether the runner's own or
one inside the solver's `fit`? -/
def Event.isErrCallAny : Event → Bool
  | Event.errCall _ _ => true
  | Event.inFit (Event.errCall _ _) => true
  | _ => false

/-- Does this event mutate an input array (looking through `inFit`)? -/
def hasWrite : Event → Bool
  | Event.write _ => true
  | Event.inFit e => hasWrite e
  | _ => false

/-- The lines a trace writes to standard output, in order. -/
def printsOf (tr : List Event) : List String :=
  tr.filterMap fun e =>
    match e with
    | Event.print s => some s
    | _ => none

/-- The events strictly between the first and the second clock read of a
trace — the timed window whose length is reported as elapsed time. -/
def betweenTimeReads (tr : List Event) : List Event :=
  ((tr.dropWhile (fun e => !e.isTimeRead)).tail).takeWhile
    (fun e => !e.isTimeRead)

/-- The events strictly after the second clock read of a trace. -/
def afterSecondTimeRead (tr : List Event) : List Event :=
  ((((tr.dropWhile (fun e => !e.isTimeRead)).tail).dropWhile
    (fun e => !e.isTimeRead)).tail)

/-- The external SVC-style solver oracle (sklearn's `svm.SVC` or
thundersvm's `SVC`, third-party libraries): a radial-basis-kernel SVM
parameterised by the margin penalty `C` and kernel width `gamma`.  `fit`
trains on features and class-index labels and may raise; `predict`, given
the same construction parameters and training data (which determine the
fitted model) and test features, returns a one-dimensional prediction
array and may raise. -/
structure SVCSolver where
  fit : ℚ → ℚ → Mat → List ℕ → Except String Unit
  predict : ℚ → ℚ → Mat → List ℕ → Mat → Except String Vec

/-- Modelled from the spec: the falkon library's `Falkon` estimator is code
of this repository that is not under src/ (only the notebook is), so its
behaviour is modelled abstractly.  `fit Xtr Ytr Xts Yts` trains and may
raise; `iterPredict i Xts` is the model's test-set prediction after `i`
iterations (used by the in-fit error monitoring that `error_fn` /
`error_every` enable); `predictOut Xts` is the final prediction and may
raise. -/
structure FalkonBehavior where
  fit : Mat → Mat → Mat → Mat → Except String Unit
  iterPredict : ℕ → Mat → Mat
  predictOut : Mat → Except String Mat

/-- Modelled from the spec: when the Falkon estimator is constructed with an
error function and `error_every = e` and `fit` is given test data, every
`e`-th iteration of the `maxiter` iterations evaluates the supplied error
function on the test labels and the current test predictions.  These are
the events `fit` performs internally, each wrapped in `Event.inFit`. -/
def falkonInternalEvents (beh : FalkonBehavior) (errorEvery maxiter : ℕ)
    (Xts Yts : Mat) : List Event :=
  (List.range maxiter).filterMap fun i =>
    if (i + 1) % errorEvery = 0 then
      some (Event.inFit (Event.errCall Yts (beh.iterPredict (i + 1) Xts)))
    else none

/-- Embedding of `run_libsvm(Xtr, Xts, Ytr, Yts, sigma, C, err_fn)`.
Returns the event trace in program order and the returned value
(`Except.error` when a solver call raises; the exception then propagates
uncaught, so the trace stops at the raising call and nothing is printed). -/
def run_libsvm (pyStr : ℚ → String) (clock : ℕ → ℚ) (solver : SVCSolver)
    (Xtr Xts Ytr Yts : Mat) (sigma C : ℚ) (err_fn : ErrFn) :
    List Event × Except String (ℚ × ℚ) :=
  let gamma := 1 / (2 * sigma ^ 2)
  let pre := [Event.svcConstruct C gamma, Event.timeRead (clock 0)]
  let fitEv := Event.fitCall (numpy Xtr) (FitLabels.idx (argmax1 Ytr))
  match solver.fit C gamma (numpy Xtr) (argmax1 Ytr) with
  | Except.error e => (pre ++ [fitEv], Except.error e)
  | Except.ok _ =>
    match solver.predict C gamma (numpy Xtr) (argmax1 Ytr) (numpy Xts) with
    | Except.error e =>
        (pre ++ [fitEv, Event.timeRead (clock 1),
          Event.predictCall (numpy Xts)], Except.error e)
    | Except.ok preds =>
        let reshaped := from_numpy (reshapeNeg1_1 preds)
        let test_err := (err_fn Yts reshaped).1
        let test_err_name := (err_fn Yts reshaped).2
        let elapsed := clock 1 - clock 0
        let line1 := "LIBSVM elapsed " ++ formatFixed 2 elapsed ++ "s"
        let line2 := "Sigma " ++ pyStr sigma ++ " - C " ++ pyStr C ++
          " - Test " ++ test_err_name ++ ": " ++ formatWidth 9 6 test_err
        (pre ++ [fitEv, Event.timeRead (clock 1),
          Event.predictCall (numpy Xts), Event.errCall Yts reshaped,
          Event.print line1, Event.print line2],
         Except.ok (test_err, elapsed))

/-- Embedding of `run_thundersvm(Xtr, Xts, Ytr, Yts, sigma, C, err_fn)`:
identical to `run_libsvm` except for the solver library used and the solver
name in the first report line. -/
def run_thundersvm (pyStr : ℚ → String) (clock : ℕ → ℚ) (solver : SVCSolver)
    (Xtr Xts Ytr Yts : Mat) (sigma C : ℚ) (err_fn : ErrFn) :
    List Event × Except String (ℚ × ℚ) :=
  let gamma := 1 / (2 * sigma ^ 2)
  let pre := [Event.svcConstruct C gamma, Event.timeRead (clock 0)]
  let fitEv := Event.fitCall (numpy Xtr) (FitLabels.idx (argmax1 Ytr))
  match solver.fit C gamma (numpy Xtr) (argmax1 Ytr) with
  | Except.error e => (pre ++ [fitEv], Except.error e)
  | Except.ok _ =>
    match solver.predict C gamma (numpy Xtr) (argmax1 Ytr) (numpy Xts) with
    | Except.error e =>
        (pre ++ [fitEv, Event.timeRead (clock 1),
          Event.predictCall (numpy Xts)], Except.error e)
    | Except.ok preds =>
        let reshaped := from_numpy (reshapeNeg1_1 preds)
        let test_err := (err_fn Yts reshaped).1
        let test_err_name := (err_fn Yts reshaped).2
        let elapsed := clock 1 - clock 0
        let line1 := "THUNDERSVM elapsed " ++ formatFixed 2 elapsed ++ "s"
        let line2 := "Sigma " ++ pyStr sigma ++ " - C " ++ pyStr C ++
          " - Test " ++ test_err_name ++ ": " ++ formatWidth 9 6 test_err
        (pre ++ [fitEv, Event.timeRead (clock 1),
          Event.predictCall (numpy Xts), Event.errCall Yts reshaped,
          Event.print line1, Event.print line2],
         Except.ok (test_err, elapsed))

/-- Embedding of `run_flk(Xtr, Xts, Ytr, Yts, sigma, penalty, M, num_iter,
err_fn)`.  The Falkon estimator is constructed with the Gaussian kernel of
bandwidth `sigma`, the given `penalty`, `M` and `maxiter = num_iter`,
`seed = 1234 - 21`, the supplied `err_fn` as its error function and
`error_every = 1`; `fit` receives both the training and the test split, and
its internal error-monitoring events (modelled in `falkonInternalEvents`)
fall inside the timed window. -/
def run_flk (pyStr : ℚ → String) (clock : ℕ → ℚ) (beh : FalkonBehavior)
    (Xtr Xts Ytr Yts : Mat) (sigma penalty : ℚ) (M num_iter : ℕ)
    (err_fn : ErrFn) : List Event × Except String (ℚ × ℚ) :=
  let seed : ℤ := 1234 - 21
  let error_every : ℕ := 1
  let pre := [Event.falkonConstruct sigma penalty M num_iter seed error_every,
    Event.timeRead (clock 0)]
  let fitEv := Event.falkonFitCall Xtr Ytr Xts Yts
  match beh.fit Xtr Ytr Xts Yts with
  | Except.error e => (pre ++ [fitEv], Except.error e)
  | Except.ok _ =>
    let inner := falkonInternalEvents beh error_every num_iter Xts Yts
    match beh.predictOut Xts with
    | Except.error e =>
        (pre ++ fitEv :: inner ++ [Event.timeRead (clock 1),
          Event.predictCall Xts], Except.error e)
    | Except.ok test_preds =>
        let test_err := (err_fn Yts test_preds).1
        let test_err_name := (err_fn Yts test_preds).2
        let elapsed := clock 1 - clock 0
        let line1 := "Falkon elapsed " ++ formatFixed 2 elapsed ++ "s"
        let line2 := "M " ++ pyStr (M : ℚ) ++ " - Sigma " ++ pyStr sigma ++
          " - Lambda " ++ pyStr penalty ++ " - Test " ++ test_err_name ++
          ": " ++ formatWidth 9 6 test_err
        (pre ++ fitEv :: inner ++ [Event.timeRead (clock 1),
          Event.predictCall Xts, Event.errCall Yts test_preds,
          Event.print line1, Event.print line2],
         Except.ok (test_err, elapsed))

/-- The timed window of a trace covers only the fitting step: every event
strictly between the two clock reads belongs to the fitting phase, and the
runner's own prediction and error-evaluation events all lie strictly after
the second clock read. -/
def windowOnlyFit (tr : List Event) : Prop :=
  ((betweenTimeReads tr).all Event.isFitPhase = true) ∧
  tr.filter Event.isPostStep = (afterSecondTimeRead tr).filter Event.isPostStep

/-- Python numeral rendering stub used for concrete witnesses. -/
def pyStr0 : ℚ → String := fun q => toString q.num

/-- A two-read clock used for concrete witnesses: 0 at the first
`time.time()` call, 1 afterwards. -/
def clock0 : ℕ → ℚ := fun i => if i = 0 then 0 else 1

/-- Error-function stub used for concrete witnesses. -/
def errFn0 : ErrFn := fun _ _ => (1 / 2, "c-error")

/-- SVC oracle whose fit and predict both succeed. -/
def solverOk : SVCSolver :=
  { fit := fun _ _ _ _ => Except.ok ()
    predict := fun _ _ _ _ _ => Except.ok [0] }

/-- SVC oracle whose fit raises. -/
def solverFitFail : SVCSolver :=
  { fit := fun _ _ _ _ => Except.error ("oom")
    predict := fun _ _ _ _ _ => Except.ok [0] }

/-- SVC oracle whose fit succeeds and whose predict raises. -/
def solverPredFail : SVCSolver :=
  { fit := fun _ _ _ _ => Except.ok ()
    predict := fun _ _ _ _ _ => Except.error ("badshape") }

/-- Falkon oracle whose fit and predict both succeed. -/
def behOk : FalkonBehavior :=
  { fit := fun _ _ _ _ => Except.ok ()
    iterPredict := fun _ X => X
    predictOut := fun X => Except.ok X }

/-- Falkon oracle whose fit raises. -/
def behFitFail : FalkonBehavior :=
  { fit := fun _ _ _ _ => Except.error ("cudaoom")
    iterPredict := fun _ X => X
    predictOut := fun X => Except.ok X }

/-- Falkon oracle whose fit succeeds and whose predict raises. -/
def behPredFail : FalkonBehavior :=
  { fit := fun _ _ _ _ => Except.ok ()
    iterPredict := fun _ X => X
    predictOut := fun _ => Except.error ("badpred") }

/-- Concrete training features for witnesses. -/
def Xtr0 : Mat := [[1]]

/-- Concrete test features for witnesses. -/
def Xts0 : Mat := [[2]]

/-- Concrete one-hot training labels for witnesses. -/
def Ytr0 : Mat := [[0, 1]]

/-- Concrete one-hot test labels for witnesses. -/
def Yts0 : Mat := [[1, 0]]

lemma takeWhile_append_all (p : Event → Bool) (l l' : List Event)
    (h : ∀ a ∈ l, p a = true) :
    (l ++ l').takeWhile p = l ++ l'.takeWhile p := by
  induction l with
  | nil => simp
  | cons a l ih =>
      have ha := h a (List.mem_cons_self a l)
      simp only [List.cons_append, List.takeWhile_cons, ha, if_true]
      rw [ih (fun b hb => h b (List.mem_cons_of_mem a hb))]

lemma dropWhile_append_all (p : Event → Bool) (l l' : List Event)
    (h : ∀ a ∈ l, p a = true) :
    (l ++ l').dropWhile p = l'.dropWhile p := by
  induction l with
  | nil => simp
  | cons a l ih =>
      have ha := h a (List.mem_cons_self a l)
      simp only [List.cons_append, List.dropWhile_cons, ha, if_true]
      exact ih (fun b hb => h b (List.mem_cons_of_mem a hb))

lemma filter_none_all (p : Event → Bool) (l : List Event)
    (h : ∀ a ∈ l, p a = false) : l.filter p = [] := by
  induction l with
  | nil => rfl
  | cons a l ih =>
      simp only [List.filter_cons, h a (List.mem_cons_self a l)]
      exact ih (fun b hb => h b (List.mem_cons_of_mem a hb))

lemma falkonInternalEvents_shape (beh : FalkonBehavior) (ee n : ℕ)
    (Xts Yts : Mat) :
    ∀ e ∈ falkonInternalEvents beh ee n Xts Yts,
      ∃ i, e = Event.inFit (Event.errCall Yts (beh.iterPredict i Xts)) := by
  intro e he
  simp only [falkonInternalEvents, List.mem_filterMap, List.mem_range] at he
  obtain ⟨i, _, hi⟩ := he
  by_cases h : (i + 1) % ee = 0
  · rw [if_pos h] at hi
    exact ⟨i + 1, (Option.some.inj hi).symm⟩
  · rw [if_neg h] at hi
    exact Option.noConfusion hi

lemma dropWhile_nt_cons_false (a : Event) (l : List Event)
    (ha : a.isTimeRead = false) :
    (a :: l).dropWhile (fun e => !e.isTimeRead) =
      l.dropWhile (fun e => !e.isTimeRead) := by
  simp [List.dropWhile_cons, ha]

lemma dropWhile_nt_cons_time (t : ℚ) (l : List Event) :
    (Event.timeRead t :: l).dropWhile (fun e => !e.isTimeRead) =
      Event.timeRead t :: l := by
  simp [List.dropWhile_cons, Event.isTimeRead]

lemma takeWhile_nt_cons_false (b : Event) (l : List Event)
    (hb : b.isTimeRead = false) :
    (b :: l).takeWhile (fun e => !e.isTimeRead) =
      b :: l.takeWhile (fun e => !e.isTimeRead) := by
  simp [List.takeWhile_cons, hb]

lemma takeWhile_nt_cons_time (t : ℚ) (l : List Event) :
    (Event.timeRead t :: l).takeWhile (fun e => !e.isTimeRead) = [] := by
  simp [List.takeWhile_cons, Event.isTimeRead]

lemma betweenTimeReads_skeleton (a b : Event) (t1 t2 : ℚ)
    (inner rest : List Event)
    (ha : a.isTimeRead = false) (hb : b.isTimeRead = false)
    (hinner : ∀ e ∈ inner, e.isTimeRead = false) :
    betweenTimeReads
      (a :: Event.timeRead t1 :: b :: (inner ++ Event.timeRead t2 :: rest)) =
      b :: inner := by
  rw [betweenTimeReads, dropWhile_nt_cons_false a _ ha,
    dropWhile_nt_cons_time, List.tail_cons,
    takeWhile_nt_cons_false b _ hb,
    takeWhile_append_all _ inner _ (fun e he => by rw [hinner e he]; rfl),
    takeWhile_nt_cons_time, List.append_nil]

lemma afterSecondTimeRead_skeleton (a b : Event) (t1 t2 : ℚ)
    (inner rest : List Event)
    (ha : a.isTimeRead = false) (hb : b.isTimeRead = false)
    (hinner : ∀ e ∈ inner, e.isTimeRead = false) :
    afterSecondTimeRead
      (a :: Event.timeRead t1 :: b :: (inner ++ Event.timeRead t2 :: rest)) =
      rest := by
  rw [afterSecondTimeRead, dropWhile_nt_cons_false a _ ha,
    dropWhile_nt_cons_time, List.tail_cons,
    dropWhile_nt_cons_false b _ hb,
    dropWhile_append_all _ inner _ (fun e he => by rw [hinner e he]; rfl),
    dropWhile_nt_cons_time, List.tail_cons]

lemma isPostStep_timeRead (t : ℚ) : (Event.timeRead t).isPostStep = false := rfl

lemma falkonInner_not_time (beh : FalkonBehavior) (ee n : ℕ) (Xts Yts : Mat) :
    ∀ e ∈ falkonInternalEvents beh ee n Xts Yts, e.isTimeRead = false := by
  intro e he
  obtain ⟨i, rfl⟩ := falkonInternalEvents_shape beh ee n Xts Yts e he
  rfl

lemma falkonInner_fitPhase (beh : FalkonBehavior) (ee n : ℕ) (Xts Yts : Mat) :
    ∀ e ∈ falkonInternalEvents beh ee n Xts Yts, e.isFitPhase = true := by
  intro e he
  obtain ⟨i, rfl⟩ := falkonInternalEvents_shape beh ee n Xts Yts e he
  rfl

lemma falkonInner_not_post (beh : FalkonBehavior) (ee n : ℕ) (Xts Yts : Mat) :
    ∀ e ∈ falkonInternalEvents beh ee n Xts Yts, e.isPostStep = false := by
  intro e he
  obtain ⟨i, rfl⟩ := falkonInternalEvents_shape beh ee n Xts Yts e he
  rfl

lemma windowOnlyFit_skeleton (a b : Event) (t1 t2 : ℚ)
    (inner rest : List Event)
    (ha : a.isTimeRead = false) (hpa : a.isPostStep = false)
    (hb : b.isTimeRead = false) (hfb : b.isFitPhase = true)
    (hpb : b.isPostStep = false)
    (hi_t : ∀ e ∈ inner, e.isTimeRead = false)
    (hi_f : ∀ e ∈ inner, e.isFitPhase = true)
    (hi_p : ∀ e ∈ inner, e.isPostStep = false) :
    windowOnlyFit
      (a :: Event.timeRead t1 :: b :: (inner ++ Event.timeRead t2 :: rest)) := by
  constructor
  · rw [betweenTimeReads_skeleton a b t1 t2 inner rest ha hb hi_t]
    simp only [List.all_cons, hfb, Bool.true_and, List.all_eq_true]
    exact hi_f
  · rw [afterSecondTimeRead_skeleton a b t1 t2 inner rest ha hb hi_t]
    simp only [List.filter_cons, hpa, isPostStep_timeRead, hpb,
      Bool.false_eq_true, if_false, List.filter_append]
    rw [filter_none_all _ inner hi_p]
    simp

lemma windowOnlyFit_fitfail (a b : Event) (t1 : ℚ)
    (ha : a.isTimeRead = false) (hpa : a.isPostStep = false)
    (hb : b.isTimeRead = false) (hfb : b.isFitPhase = true)
    (hpb : b.isPostStep = false) :
    windowOnlyFit [a, Event.timeRead t1, b] := by
  constructor
  · rw [betweenTimeReads, dropWhile_nt_cons_false a _ ha,
      dropWhile_nt_cons_time, List.tail_cons, takeWhile_nt_cons_false b _ hb]
    simp [hfb]
  · rw [afterSecondTimeRead, dropWhile_nt_cons_false a _ ha,
      dropWhile_nt_cons_time, List.tail_cons, dropWhile_nt_cons_false b _ hb]
    simp only [List.dropWhile_nil, List.tail_nil]
    simp only [List.filter_cons, List.filter_nil, hpa, isPostStep_timeRead,
      hpb, Bool.false_eq_true, if_false]

/-- C1: in every runner (`run_libsvm`, `run_thundersvm`, `run_flk`) the
window between the two recorded timestamps contains only the solver-fitting
step (the `fit` invocation and, for Falkon, the monitoring steps `fit`
performs internally); the runner's prediction step and its error-evaluation
step lie strictly after the second timestamp, on every execution path. -/
theorem timing_window_only_fit
    (pyStr : ℚ → String) (clock : ℕ → ℚ) (sv1 sv2 : SVCSolver)
    (beh : FalkonBehavior) (Xtr Xts Ytr Yts : Mat) (sigma C penalty : ℚ)
    (M num_iter : ℕ) (err_fn : ErrFn) :
    windowOnlyFit
      (run_libsvm pyStr clock sv1 Xtr Xts Ytr Yts sigma C err_fn).1 ∧
    windowOnlyFit
      (run_thundersvm pyStr clock sv2 Xtr Xts Ytr Yts sigma C err_fn).1 ∧
    windowOnlyFit
      (run_flk pyStr clock beh Xtr Xts Ytr Yts sigma penalty M num_iter
        err_fn).1 := by
  refine ⟨?_, ?_, ?_⟩
  · rcases hf : sv1.fit C (1 / (2 * sigma ^ 2)) (numpy Xtr) (argmax1 Ytr)
      with e | u
    · simp only [run_libsvm, hf]
      exact windowOnlyFit_fitfail _ _ _ rfl rfl rfl rfl rfl
    · rcases hp : sv1.predict C (1 / (2 * sigma ^ 2)) (numpy Xtr)
        (argmax1 Ytr) (numpy Xts) with e | preds
      · simp only [run_libsvm, hf, hp]
        exact windowOnlyFit_skeleton _ _ _ _ [] _ rfl rfl rfl rfl rfl
          (by simp) (by simp) (by simp)
      · simp only [run_libsvm, hf, hp]
        exact windowOnlyFit_skeleton _ _ _ _ [] _ rfl rfl rfl rfl rfl
          (by simp) (by simp) (by simp)
  · rcases hf : sv2.fit C (1 / (2 * sigma ^ 2)) (numpy Xtr) (argmax1 Ytr)
      with e | u
    · simp only [run_thundersvm, hf]
      exact windowOnlyFit_fitfail _ _ _ rfl rfl rfl rfl rfl
    · rcases hp : sv2.predict C (1 / (2 * sigma ^ 2)) (numpy Xtr)
        (argmax1 Ytr) (numpy Xts) with e | preds
      · simp only [run_thundersvm, hf, hp]
        exact windowOnlyFit_skeleton _ _ _ _ [] _ rfl rfl rfl rfl rfl
          (by simp) (by simp) (by simp)
      · simp only [run_thundersvm, hf, hp]
        exact windowOnlyFit_skeleton _ _ _ _ [] _ rfl rfl rfl rfl rfl
          (by simp) (by simp) (by simp)
  · rcases hf : beh.fit Xtr Ytr Xts Yts with e | u
    · simp only [run_flk, hf]
      exact windowOnlyFit_fitfail _ _ _ rfl rfl rfl rfl rfl
    · rcases hp : beh.predictOut Xts with e | preds
      · simp only [run_flk, hf, hp]
        exact windowOnlyFit_skeleton _ _ _ _ _ _ rfl rfl rfl rfl rfl
          (falkonInner_not_time beh 1 num_iter Xts Yts)
          (falkonInner_fitPhase beh 1 num_iter Xts Yts)
          (falkonInner_not_post beh 1 num_iter Xts Yts)
      · simp only [run_flk, hf, hp]
        exact windowOnlyFit_skeleton _ _ _ _ _ _ rfl rfl rfl rfl rfl
          (falkonInner_not_time beh 1 num_iter Xts Yts)
          (falkonInner_fitPhase beh 1 num_iter Xts Yts)
          (falkonInner_not_post beh 1 num_iter Xts Yts)

/-- C3: both SVC-style runners construct their solver with the kernel-width
parameter `gamma` derived from the bandwidth input as `1 / (2 * sigma^2)`
exactly (the construction event is the first step of every run), and at
`sigma = 15` this value is `1 / 450`. -/
theorem gamma_from_sigma
    (pyStr : ℚ → String) (clock : ℕ → ℚ) (sv1 sv2 : SVCSolver)
    (Xtr Xts Ytr Yts : Mat) (sigma C : ℚ) (err_fn : ErrFn) :
    ((run_libsvm pyStr clock sv1 Xtr Xts Ytr Yts sigma C err_fn).1.head? =
      some (Event.svcConstruct C (1 / (2 * sigma ^ 2)))) ∧
    ((run_thundersvm pyStr clock sv2 Xtr Xts Ytr Yts sigma C err_fn).1.head? =
      some (Event.svcConstruct C (1 / (2 * sigma ^ 2)))) ∧
    ((1 : ℚ) / (2 * 15 ^ 2) = 1 / 450) := by
  refine ⟨?_, ?_, by norm_num⟩
  · rcases hf : sv1.fit C (1 / (2 * sigma ^ 2)) (numpy Xtr) (argmax1 Ytr)
      with e | u
    · simp only [run_libsvm, hf]
      rfl
    · rcases hp : sv1.predict C (1 / (2 * sigma ^ 2)) (numpy Xtr)
        (argmax1 Ytr) (numpy Xts) with e | preds
      · simp only [run_libsvm, hf, hp]
        rfl
      · simp only [run_libsvm, hf, hp]
        rfl
  · rcases hf : sv2.fit C (1 / (2 * sigma ^ 2)) (numpy Xtr) (argmax1 Ytr)
      with e | u
    · simp only [run_thundersvm, hf]
      rfl
    · rcases hp : sv2.predict C (1 / (2 * sigma ^ 2)) (numpy Xtr)
        (argmax1 Ytr) (numpy Xts) with e | preds
      · simp only [run_thundersvm, hf, hp]
        rfl
      · simp only [run_thundersvm, hf, hp]
        rfl

lemma falkonInner_not_falkonFit (beh : FalkonBehavior) (ee n : ℕ)
    (Xts Yts : Mat) :
    ∀ e ∈ falkonInternalEvents beh ee n Xts Yts,
      e.isFalkonFitCall = false := by
  intro e he
  obtain ⟨i, rfl⟩ := falkonInternalEvents_shape beh ee n Xts Yts e he
  rfl

lemma filter_skeleton (P : Event → Bool) (a b : Event) (t1 t2 : ℚ)
    (inner rest : List Event) (hpa : P a = false)
    (hpt : ∀ t, P (Event.timeRead t) = false) (hb : P b = true)
    (hi : ∀ e ∈ inner, P e = false) :
    (a :: Event.timeRead t1 :: b ::
      (inner ++ Event.timeRead t2 :: rest)).filter P = b :: rest.filter P := by
  rw [List.filter_cons, List.filter_cons, List.filter_cons,
    List.filter_append, List.filter_cons, filter_none_all P inner hi]
  simp [hpa, hpt, hb]

/-- C4: on every input and every execution path, `run_libsvm` and
`run_thundersvm` hand `fit` the training labels converted to class indices
(`argmax` along axis 1), while `run_flk` hands `fit` the training label
matrix `Ytr` unchanged, in its original (possibly one-hot) form. -/
theorem fit_label_shapes
    (pyStr : ℚ → String) (clock : ℕ → ℚ) (sv1 sv2 : SVCSolver)
    (beh : FalkonBehavior) (Xtr Xts Ytr Yts : Mat) (sigma C penalty : ℚ)
    (M num_iter : ℕ) (err_fn : ErrFn) :
    ((run_libsvm pyStr clock sv1 Xtr Xts Ytr Yts sigma C err_fn).1.filter
      Event.isFitCall =
      [Event.fitCall (numpy Xtr) (FitLabels.idx (argmax1 Ytr))]) ∧
    ((run_thundersvm pyStr clock sv2 Xtr Xts Ytr Yts sigma C err_fn).1.filter
      Event.isFitCall =
      [Event.fitCall (numpy Xtr) (FitLabels.idx (argmax1 Ytr))]) ∧
    ((run_flk pyStr clock beh Xtr Xts Ytr Yts sigma penalty M num_iter
      err_fn).1.filter Event.isFalkonFitCall =
      [Event.falkonFitCall Xtr Ytr Xts Yts]) := by
  refine ⟨?_, ?_, ?_⟩
  · rcases hf : sv1.fit C (1 / (2 * sigma ^ 2)) (numpy Xtr) (argmax1 Ytr)
      with e | u
    · simp only [run_libsvm, hf]
      rfl
    · rcases hp : sv1.predict C (1 / (2 * sigma ^ 2)) (numpy Xtr)
        (argmax1 Ytr) (numpy Xts) with e | preds
      · simp only [run_libsvm, hf, hp]
        rfl
      · simp only [run_libsvm, hf, hp]
        rfl
  · rcases hf : sv2.fit C (1 / (2 * sigma ^ 2)) (numpy Xtr) (argmax1 Ytr)
      with e | u
    · simp only [run_thundersvm, hf]
      rfl
    · rcases hp : sv2.predict C (1 / (2 * sigma ^ 2)) (numpy Xtr)
        (argmax1 Ytr) (numpy Xts) with e | preds
      · simp only [run_thundersvm, hf, hp]
        rfl
      · simp only [run_thundersvm, hf, hp]
        rfl
  · rcases hf : beh.fit Xtr Ytr Xts Yts with e | u
    · simp only [run_flk, hf]
      rfl
    · rcases hp : beh.predictOut Xts with e | preds
      · simp only [run_flk, hf, hp, List.cons_append]
        refine Eq.trans (filter_skeleton Event.isFalkonFitCall _ _ _ _ _ _
          rfl (fun t => rfl) rfl
          (falkonInner_not_falkonFit beh 1 num_iter Xts Yts)) ?_
        rfl
      · simp only [run_flk, hf, hp, List.cons_append]
        refine Eq.trans (filter_skeleton Event.isFalkonFitCall _ _ _ _ _ _
          rfl (fun t => rfl) rfl
          (falkonInner_not_falkonFit beh 1 num_iter Xts Yts)) ?_
        rfl

/-- C2: on every runner call that completes without an exception, the
returned value is the pair of the error value and the elapsed seconds, the
first component being exactly the scalar the supplied error function
returns on the true test labels and the (for the SVC runners, reshaped)
predictions, for an arbitrary error function. -/
theorem runner_result_pair
    (pyStr : ℚ → String) (clock : ℕ → ℚ) (sv1 sv2 : SVCSolver)
    (beh : FalkonBehavior) (Xtr Xts Ytr Yts : Mat) (sigma C penalty : ℚ)
    (M num_iter : ℕ) (err_fn : ErrFn) (u1 u2 u3 : Unit) (p1 p2 : Vec)
    (p3 : Mat)
    (hf1 : sv1.fit C (1 / (2 * sigma ^ 2)) (numpy Xtr) (argmax1 Ytr) =
      Except.ok u1)
    (hp1 : sv1.predict C (1 / (2 * sigma ^ 2)) (numpy Xtr) (argmax1 Ytr)
      (numpy Xts) = Except.ok p1)
    (hf2 : sv2.fit C (1 / (2 * sigma ^ 2)) (numpy Xtr) (argmax1 Ytr) =
      Except.ok u2)
    (hp2 : sv2.predict C (1 / (2 * sigma ^ 2)) (numpy Xtr) (argmax1 Ytr)
      (numpy Xts) = Except.ok p2)
    (hf3 : beh.fit Xtr Ytr Xts Yts = Except.ok u3)
    (hp3 : beh.predictOut Xts = Except.ok p3) :
    ((run_libsvm pyStr clock sv1 Xtr Xts Ytr Yts sigma C err_fn).2 =
      Except.ok ((err_fn Yts (from_numpy (reshapeNeg1_1 p1))).1,
        clock 1 - clock 0)) ∧
    ((run_thundersvm pyStr clock sv2 Xtr Xts Ytr Yts sigma C err_fn).2 =
      Except.ok ((err_fn Yts (from_numpy (reshapeNeg1_1 p2))).1,
        clock 1 - clock 0)) ∧
    ((run_flk pyStr clock beh Xtr Xts Ytr Yts sigma penalty M num_iter
      err_fn).2 = Except.ok ((err_fn Yts p3).1, clock 1 - clock 0)) := by
  refine ⟨?_, ?_, ?_⟩
  · simp only [run_libsvm, hf1, hp1]
  · simp only [run_thundersvm, hf2, hp2]
  · simp only [run_flk, hf3, hp3]

/-- Witness for C2 at concrete inputs: both hypotheses hold definitionally
for the stub oracles and the conclusion follows by the theorem. -/
theorem runner_result_pair_witness :
    ((run_libsvm pyStr0 clock0 solverOk Xtr0 Xts0 Ytr0 Yts0 1 1 errFn0).2 =
      Except.ok ((errFn0 Yts0 (from_numpy (reshapeNeg1_1 [0]))).1,
        clock0 1 - clock0 0)) ∧
    ((run_thundersvm pyStr0 clock0 solverOk Xtr0 Xts0 Ytr0 Yts0 1 1
      errFn0).2 = Except.ok ((errFn0 Yts0
        (from_numpy (reshapeNeg1_1 [0]))).1, clock0 1 - clock0 0)) ∧
    ((run_flk pyStr0 clock0 behOk Xtr0 Xts0 Ytr0 Yts0 1 1 1 1 errFn0).2 =
      Except.ok ((errFn0 Yts0 Xts0).1, clock0 1 - clock0 0)) :=
  runner_result_pair pyStr0 clock0 solverOk solverOk behOk Xtr0 Xts0 Ytr0
    Yts0 1 1 1 1 1 errFn0 () () () [0] [0] Xts0 rfl rfl rfl rfl rfl rfl

/-- The elapsed-seconds component of a runner's returned value, when the
run completed. -/
def elapsedOf (out : Except String (ℚ × ℚ)) : Option ℚ :=
  out.toOption.map Prod.snd

/-- C5: on every runner call that completes, the reported elapsed time is
the second timestamp minus the first, in the clock's (seconds) units, and
whenever the clock oracle behind `time.time()` is monotone the reported
elapsed time is non-negative. -/
theorem elapsed_is_clock_diff
    (pyStr : ℚ → String) (clock : ℕ → ℚ) (sv1 sv2 : SVCSolver)
    (beh : FalkonBehavior) (Xtr Xts Ytr Yts : Mat) (sigma C penalty : ℚ)
    (M num_iter : ℕ) (err_fn : ErrFn) (u1 u2 u3 : Unit) (p1 p2 : Vec)
    (p3 : Mat)
    (hf1 : sv1.fit C (1 / (2 * sigma ^ 2)) (numpy Xtr) (argmax1 Ytr) =
      Except.ok u1)
    (hp1 : sv1.predict C (1 / (2 * sigma ^ 2)) (numpy Xtr) (argmax1 Ytr)
      (numpy Xts) = Except.ok p1)
    (hf2 : sv2.fit C (1 / (2 * sigma ^ 2)) (numpy Xtr) (argmax1 Ytr) =
      Except.ok u2)
    (hp2 : sv2.predict C (1 / (2 * sigma ^ 2)) (numpy Xtr) (argmax1 Ytr)
      (numpy Xts) = Except.ok p2)
    (hf3 : beh.fit Xtr Ytr Xts Yts = Except.ok u3)
    (hp3 : beh.predictOut Xts = Except.ok p3) :
    (elapsedOf (run_libsvm pyStr clock sv1 Xtr Xts Ytr Yts sigma C
      err_fn).2 = some (clock 1 - clock 0) ∧
     elapsedOf (run_thundersvm pyStr clock sv2 Xtr Xts Ytr Yts sigma C
      err_fn).2 = some (clock 1 - clock 0) ∧
     elapsedOf (run_flk pyStr clock beh Xtr Xts Ytr Yts sigma penalty M
      num_iter err_fn).2 = some (clock 1 - clock 0)) ∧
    ((∀ i j : ℕ, i ≤ j → clock i ≤ clock j) → 0 ≤ clock 1 - clock 0) := by
  refine ⟨⟨?_, ?_, ?_⟩, ?_⟩
  · simp only [run_libsvm, hf1, hp1]
    rfl
  · simp only [run_thundersvm, hf2, hp2]
    rfl
  · simp only [run_flk, hf3, hp3]
    rfl
  · intro hmono
    have := hmono 0 1 (by norm_num)
    linarith

lemma clock0_mono : ∀ i j : ℕ, i ≤ j → clock0 i ≤ clock0 j := by
  intro i j h
  by_cases hi : i = 0
  · subst hi
    by_cases hj : j = 0
    · simp [clock0, hj]
    · norm_num [clock0, hj]
  · have hj : j ≠ 0 := by omega
    simp [clock0, hi, hj]

/-- Witness for C5 at concrete inputs, discharging the success hypotheses
definitionally and the clock-monotonicity hypothesis for the concrete
two-step clock. -/
theorem elapsed_is_clock_diff_witness :
    (elapsedOf (run_libsvm pyStr0 clock0 solverOk Xtr0 Xts0 Ytr0 Yts0 1 1
      errFn0).2 = some (clock0 1 - clock0 0) ∧
     elapsedOf (run_thundersvm pyStr0 clock0 solverOk Xtr0 Xts0 Ytr0 Yts0
      1 1 errFn0).2 = some (clock0 1 - clock0 0) ∧
     elapsedOf (run_flk pyStr0 clock0 behOk Xtr0 Xts0 Ytr0 Yts0 1 1 1 1
      errFn0).2 = some (clock0 1 - clock0 0)) ∧
    (0 ≤ clock0 1 - clock0 0) := by
  have h := elapsed_is_clock_diff pyStr0 clock0 solverOk solverOk behOk
    Xtr0 Xts0 Ytr0 Yts0 1 1 1 1 1 errFn0 () () () [0] [0] Xts0
    rfl rfl rfl rfl rfl rfl
  exact ⟨h.1, h.2 clock0_mono⟩

/-- C6: reshaping a prediction vector with `reshape(-1, 1)` preserves all
predicted values in order — flattening the reshaped matrix returns the
original vector — and only changes the shape, to one column per row
(the column-vector label shape handed to the error function); and in both
SVC runners the error function is invoked exactly on the true test labels
and that reshaped prediction matrix. -/
theorem reshape_preserves_values
    (p : Vec) (pyStr : ℚ → String) (clock : ℕ → ℚ) (sv1 sv2 : SVCSolver)
    (Xtr Xts Ytr Yts : Mat) (sigma C : ℚ) (err_fn : ErrFn)
    (u1 u2 : Unit) (p1 p2 : Vec)
    (hf1 : sv1.fit C (1 / (2 * sigma ^ 2)) (numpy Xtr) (argmax1 Ytr) =
      Except.ok u1)
    (hp1 : sv1.predict C (1 / (2 * sigma ^ 2)) (numpy Xtr) (argmax1 Ytr)
      (numpy Xts) = Except.ok p1)
    (hf2 : sv2.fit C (1 / (2 * sigma ^ 2)) (numpy Xtr) (argmax1 Ytr) =
      Except.ok u2)
    (hp2 : sv2.predict C (1 / (2 * sigma ^ 2)) (numpy Xtr) (argmax1 Ytr)
      (numpy Xts) = Except.ok p2) :
    ((reshapeNeg1_1 p).flatten = p ∧
     (reshapeNeg1_1 p).map List.length = List.replicate p.length 1) ∧
    ((run_libsvm pyStr clock sv1 Xtr Xts Ytr Yts sigma C err_fn).1.filter
      Event.isErrCallTop =
      [Event.errCall Yts (from_numpy (reshapeNeg1_1 p1))]) ∧
    ((run_thundersvm pyStr clock sv2 Xtr Xts Ytr Yts sigma C
      err_fn).1.filter Event.isErrCallTop =
      [Event.errCall Yts (from_numpy (reshapeNeg1_1 p2))]) := by
  refine ⟨⟨?_, ?_⟩, ?_, ?_⟩
  · induction p with
    | nil => rfl
    | cons x xs ih => simp [reshapeNeg1_1] at ih ⊢; exact ih
  · induction p with
    | nil => rfl
    | cons x xs ih =>
        simp [reshapeNeg1_1, List.replicate_succ] at ih ⊢
        exact ih
  · simp only [run_libsvm, hf1, hp1]
    rfl
  · simp only [run_thundersvm, hf2, hp2]
    rfl

/-- Witness for C6 at concrete inputs: the round-trip equalities hold on a
concrete prediction vector and the error-call events of concrete successful
runs carry exactly the reshaped predictions. -/
theorem reshape_preserves_values_witness :
    ((reshapeNeg1_1 [3, 4]).flatten = [3, 4] ∧
     (reshapeNeg1_1 [3, 4]).map List.length =
       List.replicate (List.length [(3 : ℚ), 4]) 1) ∧
    ((run_libsvm pyStr0 clock0 solverOk Xtr0 Xts0 Ytr0 Yts0 1 1
      errFn0).1.filter Event.isErrCallTop =
      [Event.errCall Yts0 (from_numpy (reshapeNeg1_1 [0]))]) ∧
    ((run_thundersvm pyStr0 clock0 solverOk Xtr0 Xts0 Ytr0 Yts0 1 1
      errFn0).1.filter Event.isErrCallTop =
      [Event.errCall Yts0 (from_numpy (reshapeNeg1_1 [0]))]) :=
  reshape_preserves_values [3, 4] pyStr0 clock0 solverOk solverOk Xtr0 Xts0
    Ytr0 Yts0 1 1 errFn0 () () [0] [0] rfl rfl rfl rfl

lemma printsOf_append (l l' : List Event) :
    printsOf (l ++ l') = printsOf l ++ printsOf l' := by
  simp [printsOf, List.filterMap_append]

lemma printsOf_cons_not (e : Event) (l : List Event)
    (he : e.isPrint = false) : printsOf (e :: l) = printsOf l := by
  cases e <;> try rfl
  · simp [Event.isPrint] at he

lemma falkonInner_prints (beh : FalkonBehavior) (ee n : ℕ) (Xts Yts : Mat) :
    printsOf (falkonInternalEvents beh ee n Xts Yts) = [] := by
  rw [printsOf, List.filterMap_eq_nil_iff]
  intro e he
  obtain ⟨i, rfl⟩ := falkonInternalEvents_shape beh ee n Xts Yts e he
  rfl

lemma falkonInner_count_anyFit (beh : FalkonBehavior) (ee n : ℕ)
    (Xts Yts : Mat) :
    (falkonInternalEvents beh ee n Xts Yts).countP Event.isAnyFitCall = 0 := by
  rw [List.countP_eq_length_filter,
    filter_none_all _ _ (fun e he => by
      obtain ⟨i, rfl⟩ := falkonInternalEvents_shape beh ee n Xts Yts e he
      rfl)]
  rfl

lemma printsOf_none_all (l : List Event)
    (h : ∀ e ∈ l, e.isPrint = false) : printsOf l = [] := by
  rw [printsOf, List.filterMap_eq_nil_iff]
  intro e he
  have hp := h e he
  cases e <;> try rfl
  · simp [Event.isPrint] at hp

lemma printsOf_skeleton (a b c : Event) (inner rest : List Event)
    (ha : a.isPrint = false) (hb : b.isPrint = false)
    (hc : c.isPrint = false) (hi : ∀ e ∈ inner, e.isPrint = false) :
    printsOf (a :: b :: c :: (inner ++ rest)) = printsOf rest := by
  rw [printsOf_cons_not a _ ha, printsOf_cons_not b _ hb,
    printsOf_cons_not c _ hc, printsOf_append, printsOf_none_all inner hi,
    List.nil_append]

lemma falkonInner_not_print (beh : FalkonBehavior) (ee n : ℕ)
    (Xts Yts : Mat) :
    ∀ e ∈ falkonInternalEvents beh ee n Xts Yts, e.isPrint = false := by
  intro e he
  obtain ⟨i, rfl⟩ := falkonInternalEvents_shape beh ee n Xts Yts e he
  rfl

/-- C7: an exception raised by the underlying solver's fit or predict
propagates to the caller uncaught and unmodified — the runner returns the
very same error and prints nothing (no partial result) — and, on every
execution path of every runner, the solver's fit is invoked exactly once
(no retry and no fallback). -/
theorem solver_errors_propagate
    (pyStr : ℚ → String) (clock : ℕ → ℚ)
    (svE svP swE swP sv9a sv9b : SVCSolver)
    (behE behP beh9 : FalkonBehavior) (Xtr Xts Ytr Yts : Mat)
    (sigma C penalty : ℚ) (M num_iter : ℕ) (err_fn : ErrFn)
    (e1 e2 e3 e4 e5 e6 : String) (u1 u2 u3 : Unit)
    (hE1 : svE.fit C (1 / (2 * sigma ^ 2)) (numpy Xtr) (argmax1 Ytr) =
      Except.error e1)
    (hP1f : svP.fit C (1 / (2 * sigma ^ 2)) (numpy Xtr) (argmax1 Ytr) =
      Except.ok u1)
    (hP1p : svP.predict C (1 / (2 * sigma ^ 2)) (numpy Xtr) (argmax1 Ytr)
      (numpy Xts) = Except.error e2)
    (hE2 : swE.fit C (1 / (2 * sigma ^ 2)) (numpy Xtr) (argmax1 Ytr) =
      Except.error e3)
    (hP2f : swP.fit C (1 / (2 * sigma ^ 2)) (numpy Xtr) (argmax1 Ytr) =
      Except.ok u2)
    (hP2p : swP.predict C (1 / (2 * sigma ^ 2)) (numpy Xtr) (argmax1 Ytr)
      (numpy Xts) = Except.error e4)
    (hE3 : behE.fit Xtr Ytr Xts Yts = Except.error e5)
    (hP3f : behP.fit Xtr Ytr Xts Yts = Except.ok u3)
    (hP3p : behP.predictOut Xts = Except.error e6) :
    ((run_libsvm pyStr clock svE Xtr Xts Ytr Yts sigma C err_fn).2 =
       Except.error e1 ∧
     printsOf (run_libsvm pyStr clock svE Xtr Xts Ytr Yts sigma C
       err_fn).1 = []) ∧
    ((run_libsvm pyStr clock svP Xtr Xts Ytr Yts sigma C err_fn).2 =
       Except.error e2 ∧
     printsOf (run_libsvm pyStr clock svP Xtr Xts Ytr Yts sigma C
       err_fn).1 = []) ∧
    ((run_thundersvm pyStr clock swE Xtr Xts Ytr Yts sigma C err_fn).2 =
       Except.error e3 ∧
     printsOf (run_thundersvm pyStr clock swE Xtr Xts Ytr Yts sigma C
       err_fn).1 = []) ∧
    ((run_thundersvm pyStr clock swP Xtr Xts Ytr Yts sigma C err_fn).2 =
       Except.error e4 ∧
     printsOf (run_thundersvm pyStr clock swP Xtr Xts Ytr Yts sigma C
       err_fn).1 = []) ∧
    ((run_flk pyStr clock behE Xtr Xts Ytr Yts sigma penalty M num_iter
       err_fn).2 = Except.error e5 ∧
     printsOf (run_flk pyStr clock behE Xtr Xts Ytr Yts sigma penalty M
       num_iter err_fn).1 = []) ∧
    ((run_flk pyStr clock behP Xtr Xts Ytr Yts sigma penalty M num_iter
       err_fn).2 = Except.error e6 ∧
     printsOf (run_flk pyStr clock behP Xtr Xts Ytr Yts sigma penalty M
       num_iter err_fn).1 = []) ∧
    ((run_libsvm pyStr clock sv9a Xtr Xts Ytr Yts sigma C err_fn).1.countP
       Event.isAnyFitCall = 1 ∧
     (run_thundersvm pyStr clock sv9b Xtr Xts Ytr Yts sigma C
       err_fn).1.countP Event.isAnyFitCall = 1 ∧
     (run_flk pyStr clock beh9 Xtr Xts Ytr Yts sigma penalty M num_iter
       err_fn).1.countP Event.isAnyFitCall = 1) := by
  refine ⟨⟨?_, ?_⟩, ⟨?_, ?_⟩, ⟨?_, ?_⟩, ⟨?_, ?_⟩, ⟨?_, ?_⟩, ⟨?_, ?_⟩,
    ?_, ?_, ?_⟩
  · simp only [run_libsvm, hE1]
  · simp only [run_libsvm, hE1]
    rfl
  · simp only [run_libsvm, hP1f, hP1p]
  · simp only [run_libsvm, hP1f, hP1p]
    rfl
  · simp only [run_thundersvm, hE2]
  · simp only [run_thundersvm, hE2]
    rfl
  · simp only [run_thundersvm, hP2f, hP2p]
  · simp only [run_thundersvm, hP2f, hP2p]
    rfl
  · simp only [run_flk, hE3]
  · simp only [run_flk, hE3]
    rfl
  · simp only [run_flk, hP3f, hP3p]
  · simp only [run_flk, hP3f, hP3p, List.cons_append]
    refine Eq.trans (printsOf_skeleton _ _ _ _ _ (by rfl) (by rfl) (by rfl)
      (falkonInner_not_print behP 1 num_iter Xts Yts)) ?_
    rfl
  · rcases hf : sv9a.fit C (1 / (2 * sigma ^ 2)) (numpy Xtr) (argmax1 Ytr)
      with e | u
    · simp only [run_libsvm, hf]
      rfl
    · rcases hp : sv9a.predict C (1 / (2 * sigma ^ 2)) (numpy Xtr)
        (argmax1 Ytr) (numpy Xts) with e | preds
      · simp only [run_libsvm, hf, hp]
        rfl
      · simp only [run_libsvm, hf, hp]
        rfl
  · rcases hf : sv9b.fit C (1 / (2 * sigma ^ 2)) (numpy Xtr) (argmax1 Ytr)
      with e | u
    · simp only [run_thundersvm, hf]
      rfl
    · rcases hp : sv9b.predict C (1 / (2 * sigma ^ 2)) (numpy Xtr)
        (argmax1 Ytr) (numpy Xts) with e | preds
      · simp only [run_thundersvm, hf, hp]
        rfl
      · simp only [run_thundersvm, hf, hp]
        rfl
  · rcases hf : beh9.fit Xtr Ytr Xts Yts with e | u
    · simp only [run_flk, hf]
      rfl
    · rcases hp : beh9.predictOut Xts with e | preds
      · simp only [run_flk, hf, hp, List.cons_append, List.countP_cons,
          List.countP_append, falkonInner_count_anyFit]
        simp [Event.isAnyFitCall]
      · simp only [run_flk, hf, hp, List.cons_append, List.countP_cons,
          List.countP_append, falkonInner_count_anyFit]
        simp [Event.isAnyFitCall]

/-- Witness for C7 at concrete inputs: a fit that raises out-of-memory in
the classical runner and a predict that raises in the Falkon runner both
propagate unmodified, with nothing printed. -/
theorem solver_errors_propagate_witness :
    ((run_libsvm pyStr0 clock0 solverFitFail Xtr0 Xts0 Ytr0 Yts0 1 1
       errFn0).2 = Except.error ("oom") ∧
     printsOf (run_libsvm pyStr0 clock0 solverFitFail Xtr0 Xts0 Ytr0 Yts0
       1 1 errFn0).1 = []) ∧
    ((run_flk pyStr0 clock0 behPredFail Xtr0 Xts0 Ytr0 Yts0 1 1 1 1
       errFn0).2 = Except.error ("badpred") ∧
     printsOf (run_flk pyStr0 clock0 behPredFail Xtr0 Xts0 Ytr0 Yts0 1 1 1
       1 errFn0).1 = []) :=
  have h := solver_errors_propagate pyStr0 clock0 solverFitFail
    solverPredFail solverFitFail solverPredFail solverOk solverOk
    behFitFail behPredFail behOk Xtr0 Xts0 Ytr0 Yts0 1 1 1 1 1 errFn0
    ("oom") ("badshape") ("oom") ("badshape") ("cudaoom") ("badpred")
    () () () rfl rfl rfl rfl rfl rfl rfl rfl rfl
  ⟨h.1, h.2.2.2.2.2.1⟩

/-- C8: every successful runner call prints exactly two report lines: the
solver name with the elapsed time rendered to two decimal places followed
by an s, then the hyperparameters used followed by the metric name and the
error value rendered to six decimal places in a width-9 field. -/
theorem two_report_lines
    (pyStr : ℚ → String) (clock : ℕ → ℚ) (sv1 sv2 : SVCSolver)
    (beh : FalkonBehavior) (Xtr Xts Ytr Yts : Mat) (sigma C penalty : ℚ)
    (M num_iter : ℕ) (err_fn : ErrFn) (u1 u2 u3 : Unit) (p1 p2 : Vec)
    (p3 : Mat)
    (hf1 : sv1.fit C (1 / (2 * sigma ^ 2)) (numpy Xtr) (argmax1 Ytr) =
      Except.ok u1)
    (hp1 : sv1.predict C (1 / (2 * sigma ^ 2)) (numpy Xtr) (argmax1 Ytr)
      (numpy Xts) = Except.ok p1)
    (hf2 : sv2.fit C (1 / (2 * sigma ^ 2)) (numpy Xtr) (argmax1 Ytr) =
      Except.ok u2)
    (hp2 : sv2.predict C (1 / (2 * sigma ^ 2)) (numpy Xtr) (argmax1 Ytr)
      (numpy Xts) = Except.ok p2)
    (hf3 : beh.fit Xtr Ytr Xts Yts = Except.ok u3)
    (hp3 : beh.predictOut Xts = Except.ok p3) :
    (printsOf (run_libsvm pyStr clock sv1 Xtr Xts Ytr Yts sigma C
      err_fn).1 =
      ["LIBSVM elapsed " ++ formatFixed 2 (clock 1 - clock 0) ++ "s",
       "Sigma " ++ pyStr sigma ++ " - C " ++ pyStr C ++ " - Test " ++
         (err_fn Yts (from_numpy (reshapeNeg1_1 p1))).2 ++ ": " ++
         formatWidth 9 6 (err_fn Yts (from_numpy (reshapeNeg1_1 p1))).1]) ∧
    (printsOf (run_thundersvm pyStr clock sv2 Xtr Xts Ytr Yts sigma C
      err_fn).1 =
      ["THUNDERSVM elapsed " ++ formatFixed 2 (clock 1 - clock 0) ++ "s",
       "Sigma " ++ pyStr sigma ++ " - C " ++ pyStr C ++ " - Test " ++
         (err_fn Yts (from_numpy (reshapeNeg1_1 p2))).2 ++ ": " ++
         formatWidth 9 6 (err_fn Yts (from_numpy (reshapeNeg1_1 p2))).1]) ∧
    (printsOf (run_flk pyStr clock beh Xtr Xts Ytr Yts sigma penalty M
      num_iter err_fn).1 =
      ["Falkon elapsed " ++ formatFixed 2 (clock 1 - clock 0) ++ "s",
       "M " ++ pyStr (M : ℚ) ++ " - Sigma " ++ pyStr sigma ++
         " - Lambda " ++ pyStr penalty ++ " - Test " ++
         (err_fn Yts p3).2 ++ ": " ++
         formatWidth 9 6 (err_fn Yts p3).1]) := by
  refine ⟨?_, ?_, ?_⟩
  · simp only [run_libsvm, hf1, hp1]
    rfl
  · simp only [run_thundersvm, hf2, hp2]
    rfl
  · simp only [run_flk, hf3, hp3, List.cons_append]
    refine Eq.trans (printsOf_skeleton _ _ _ _ _ (by rfl) (by rfl) (by rfl)
      (falkonInner_not_print beh 1 num_iter Xts Yts)) ?_
    rfl

/-- Witness for C8 at concrete inputs: the two report lines of concrete
successful runs of all three runners. -/
theorem two_report_lines_witness :
    (printsOf (run_libsvm pyStr0 clock0 solverOk Xtr0 Xts0 Ytr0 Yts0 1 1
      errFn0).1 =
      ["LIBSVM elapsed " ++ formatFixed 2 (clock0 1 - clock0 0) ++ "s",
       "Sigma " ++ pyStr0 1 ++ " - C " ++ pyStr0 1 ++ " - Test " ++
         (errFn0 Yts0 (from_numpy (reshapeNeg1_1 [0]))).2 ++ ": " ++
         formatWidth 9 6 (errFn0 Yts0
           (from_numpy (reshapeNeg1_1 [0]))).1]) ∧
    (printsOf (run_thundersvm pyStr0 clock0 solverOk Xtr0 Xts0 Ytr0 Yts0 1
      1 errFn0).1 =
      ["THUNDERSVM elapsed " ++ formatFixed 2 (clock0 1 - clock0 0) ++ "s",
       "Sigma " ++ pyStr0 1 ++ " - C " ++ pyStr0 1 ++ " - Test " ++
         (errFn0 Yts0 (from_numpy (reshapeNeg1_1 [0]))).2 ++ ": " ++
         formatWidth 9 6 (errFn0 Yts0
           (from_numpy (reshapeNeg1_1 [0]))).1]) ∧
    (printsOf (run_flk pyStr0 clock0 behOk Xtr0 Xts0 Ytr0 Yts0 1 1 1 1
      errFn0).1 =
      ["Falkon elapsed " ++ formatFixed 2 (clock0 1 - clock0 0) ++ "s",
       "M " ++ pyStr0 ((1 : ℕ) : ℚ) ++ " - Sigma " ++ pyStr0 1 ++
         " - Lambda " ++ pyStr0 1 ++ " - Test " ++
         (errFn0 Yts0 Xts0).2 ++ ": " ++
         formatWidth 9 6 (errFn0 Yts0 Xts0).1]) :=
  two_report_lines pyStr0 clock0 solverOk solverOk behOk Xtr0 Xts0 Ytr0
    Yts0 1 1 1 1 1 errFn0 () () () [0] [0] Xts0 rfl rfl rfl rfl rfl rfl

lemma falkonInner_noWrite (beh : FalkonBehavior) (ee n : ℕ)
    (Xts Yts : Mat) :
    ∀ e ∈ falkonInternalEvents beh ee n Xts Yts, hasWrite e = false := by
  intro e he
  obtain ⟨i, rfl⟩ := falkonInternalEvents_shape beh ee n Xts Yts e he
  rfl

lemma all_noWrite_skeleton (a b c : Event) (inner rest : List Event)
    (ha : hasWrite a = false) (hb : hasWrite b = false)
    (hc : hasWrite c = false) (hi : ∀ e ∈ inner, hasWrite e = false)
    (hr : rest.all (fun e => !hasWrite e) = true) :
    (a :: b :: c :: (inner ++ rest)).all (fun e => !hasWrite e) = true := by
  have hinner : inner.all (fun e => !hasWrite e) = true := by
    rw [List.all_eq_true]
    intro e he
    rw [hi e he]
    rfl
  simp [List.all_cons, List.all_append, ha, hb, hc, hinner, hr]

/-- C9: no runner performs a write to any input array on any execution
path — the traces of all three runners contain no mutation event, so the
input feature and label tensors can be shared read-only across the runner
invocations, and a runner's only effect on the world besides its returned
value is what its trace prints to standard output. -/
theorem no_input_mutation
    (pyStr : ℚ → String) (clock : ℕ → ℚ) (sv1 sv2 : SVCSolver)
    (beh : FalkonBehavior) (Xtr Xts Ytr Yts : Mat) (sigma C penalty : ℚ)
    (M num_iter : ℕ) (err_fn : ErrFn) :
    ((run_libsvm pyStr clock sv1 Xtr Xts Ytr Yts sigma C err_fn).1.all
      (fun e => !hasWrite e) = true) ∧
    ((run_thundersvm pyStr clock sv2 Xtr Xts Ytr Yts sigma C err_fn).1.all
      (fun e => !hasWrite e) = true) ∧
    ((run_flk pyStr clock beh Xtr Xts Ytr Yts sigma penalty M num_iter
      err_fn).1.all (fun e => !hasWrite e) = true) := by
  refine ⟨?_, ?_, ?_⟩
  · rcases hf : sv1.fit C (1 / (2 * sigma ^ 2)) (numpy Xtr) (argmax1 Ytr)
      with e | u
    · simp only [run_libsvm, hf]
      rfl
    · rcases hp : sv1.predict C (1 / (2 * sigma ^ 2)) (numpy Xtr)
        (argmax1 Ytr) (numpy Xts) with e | preds
      · simp only [run_libsvm, hf, hp]
        rfl
      · simp only [run_libsvm, hf, hp]
        rfl
  · rcases hf : sv2.fit C (1 / (2 * sigma ^ 2)) (numpy Xtr) (argmax1 Ytr)
      with e | u
    · simp only [run_thundersvm, hf]
      rfl
    · rcases hp : sv2.predict C (1 / (2 * sigma ^ 2)) (numpy Xtr)
        (argmax1 Ytr) (numpy Xts) with e | preds
      · simp only [run_thundersvm, hf, hp]
        rfl
      · simp only [run_thundersvm, hf, hp]
        rfl
  · rcases hf : beh.fit Xtr Ytr Xts Yts with e | u
    · simp only [run_flk, hf]
      rfl
    · rcases hp : beh.predictOut Xts with e | preds
      · simp only [run_flk, hf, hp, List.cons_append]
        exact all_noWrite_skeleton _ _ _ _ _ rfl rfl rfl
          (falkonInner_noWrite beh 1 num_iter Xts Yts) rfl
      · simp only [run_flk, hf, hp, List.cons_append]
        exact all_noWrite_skeleton _ _ _ _ _ rfl rfl rfl
          (falkonInner_noWrite beh 1 num_iter Xts Yts) rfl

lemma filterMap_all_some_eq_map (g : ℕ → Event) (l : List ℕ) :
    l.filterMap (fun a => some (g a)) = l.map g := by
  induction l with
  | nil => rfl
  | cons a l ih => simp [List.filterMap_cons, ih]

lemma falkonInternalEvents_one_eq_map (beh : FalkonBehavior) (n : ℕ)
    (Xts Yts : Mat) :
    falkonInternalEvents beh 1 n Xts Yts =
      (List.range n).map
        (fun i => Event.inFit (Event.errCall Yts
          (beh.iterPredict (i + 1) Xts))) := by
  rw [falkonInternalEvents]
  rw [show (fun i => if (i + 1) % 1 = 0 then
        some (Event.inFit (Event.errCall Yts (beh.iterPredict (i + 1) Xts)))
      else none) = fun i =>
        some (Event.inFit (Event.errCall Yts (beh.iterPredict (i + 1) Xts)))
    from funext fun i => by rw [if_pos (Nat.mod_one _)]]
  exact filterMap_all_some_eq_map _ _

lemma falkonInner_countP_err (beh : FalkonBehavior) (n : ℕ)
    (Xts Yts : Mat) :
    (falkonInternalEvents beh 1 n Xts Yts).countP Event.isErrCallAny = n := by
  rw [falkonInternalEvents_one_eq_map]
  have hall : ∀ e ∈ (List.range n).map
      (fun i => Event.inFit (Event.errCall Yts
        (beh.iterPredict (i + 1) Xts))),
      Event.isErrCallAny e = true := by
    intro e he
    obtain ⟨i, _, rfl⟩ := List.mem_map.mp he
    rfl
  rw [List.countP_eq_length.mpr hall, List.length_map, List.length_range]

lemma falkonInner_mem_one (beh : FalkonBehavior) (n : ℕ) (Xts Yts : Mat)
    (hn : 1 ≤ n) :
    Event.inFit (Event.errCall Yts (beh.iterPredict 1 Xts)) ∈
      falkonInternalEvents beh 1 n Xts Yts := by
  rw [falkonInternalEvents_one_eq_map]
  exact List.mem_map.mpr ⟨0, List.mem_range.mpr (by omega), rfl⟩

/-- C10: `run_flk` constructs the Falkon solver with the supplied error
function as its `error_fn`, `error_every = 1` and `seed = 1234 - 21`, and
invokes `fit` with both the training and the test split; consequently the
error function is evaluated on the test labels inside the timed fitting
window (once per iteration), and over the whole successful run the error
function is invoked `num_iter + 1` times — not once after prediction as in
the other two runners. -/
theorem flk_err_fn_during_fit
    (pyStr : ℚ → String) (clock : ℕ → ℚ) (beh : FalkonBehavior)
    (Xtr Xts Ytr Yts : Mat) (sigma penalty : ℚ) (M num_iter : ℕ)
    (err_fn : ErrFn) (u : Unit) (p : Mat) (hn : 1 ≤ num_iter)
    (hf : beh.fit Xtr Ytr Xts Yts = Except.ok u)
    (hp : beh.predictOut Xts = Except.ok p) :
    ((run_flk pyStr clock beh Xtr Xts Ytr Yts sigma penalty M num_iter
       err_fn).1.head? =
      some (Event.falkonConstruct sigma penalty M num_iter (1234 - 21) 1)) ∧
    (Event.falkonFitCall Xtr Ytr Xts Yts ∈ betweenTimeReads
      (run_flk pyStr clock beh Xtr Xts Ytr Yts sigma penalty M num_iter
        err_fn).1) ∧
    (Event.inFit (Event.errCall Yts (beh.iterPredict 1 Xts)) ∈
      betweenTimeReads (run_flk pyStr clock beh Xtr Xts Ytr Yts sigma
        penalty M num_iter err_fn).1) ∧
    ((run_flk pyStr clock beh Xtr Xts Ytr Yts sigma penalty M num_iter
       err_fn).1.countP Event.isErrCallAny = num_iter + 1) := by
  have hb : betweenTimeReads (run_flk pyStr clock beh Xtr Xts Ytr Yts
      sigma penalty M num_iter err_fn).1 =
      Event.falkonFitCall Xtr Ytr Xts Yts ::
        falkonInternalEvents beh 1 num_iter Xts Yts := by
    simp only [run_flk, hf, hp, List.cons_append]
    exact betweenTimeReads_skeleton _ _ _ _ _ _ rfl rfl
      (falkonInner_not_time beh 1 num_iter Xts Yts)
  refine ⟨?_, ?_, ?_, ?_⟩
  · simp only [run_flk, hf, hp]
    rfl
  · rw [hb]
    exact List.mem_cons_self _ _
  · rw [hb]
    exact List.mem_cons_of_mem _
      (falkonInner_mem_one beh num_iter Xts Yts hn)
  · simp only [run_flk, hf, hp, List.cons_append, List.countP_cons,
      List.countP_append, falkonInner_countP_err]
    simp [Event.isErrCallAny]

/-- Witness for C10 at concrete inputs: a successful one-iteration Falkon
run whose timed window contains the in-fit error evaluation on the test
labels, with two error-function invocations in total. -/
theorem flk_err_fn_during_fit_witness :
    ((run_flk pyStr0 clock0 behOk Xtr0 Xts0 Ytr0 Yts0 1 1 1 1
       errFn0).1.head? =
      some (Event.falkonConstruct 1 1 1 1 (1234 - 21) 1)) ∧
    (Event.falkonFitCall Xtr0 Ytr0 Xts0 Yts0 ∈ betweenTimeReads
      (run_flk pyStr0 clock0 behOk Xtr0 Xts0 Ytr0 Yts0 1 1 1 1
        errFn0).1) ∧
    (Event.inFit (Event.errCall Yts0 (behOk.iterPredict 1 Xts0)) ∈
      betweenTimeReads (run_flk pyStr0 clock0 behOk Xtr0 Xts0 Ytr0 Yts0 1
        1 1 1 errFn0).1) ∧
    ((run_flk pyStr0 clock0 behOk Xtr0 Xts0 Ytr0 Yts0 1 1 1 1
       errFn0).1.countP Event.isErrCallAny = 1 + 1) :=
  flk_err_fn_during_fit pyStr0 clock0 behOk Xtr0 Xts0 Ytr0 Yts0 1 1 1 1
    errFn0 () Xts0 (by norm_num) rfl rfl

end SVMComparison
